import Mathlib

/-!
Shallow embedding of the Socrates math-tutor application: the conversation
component (`handleSendMessage`, `startInitialAnalysis`, `resetTutor` and the
`Message` state of `App`) and the Gemini service wrapper
(`analyzeMathProblem`, `chatWithTutor` in `services/gemini.ts`).

Asynchrony is modelled by passing the resolution of the awaited remote call
as an explicit argument (`Except Unit String` at the component level:
`Except.error` is a thrown promise rejection, `Except.ok r` the resolved
text; `Except Unit (Option String)` at the service level, where the payload
is the possibly-absent `response.text`).  The remote requests a service
function issues are returned as an explicit list, so that "no request was
issued" is the empty list.
-/

/-- `'user' | 'model'` — the `role` field of a `Message`. -/
inductive Role where
  | user
  | model
deriving DecidableEq, Repr

/-- The `Message` interface of `App.tsx`: role, content, optional image
data-URI. -/
structure Message where
  role : Role
  content : String
  image : Option String
deriving DecidableEq, Repr

/-- One `{ text: ... }` part of a remote history entry. -/
structure TextPart where
  text : String
deriving DecidableEq, Repr

/-- The shape `{ role, parts: [{ text }] }` that `handleSendMessage` builds
from each prior `Message` and that `chatWithTutor` receives as history. -/
structure HistoryEntry where
  role : Role
  parts : List TextPart
deriving DecidableEq, Repr

/-- The component state of `App` that the claims concern: the `messages`
transcript, the `input` text field, the `isLoading` flag and the staged
image (`selectedImage`, `mimeType`). -/
structure AppState where
  messages : List Message
  input : String
  isLoading : Bool
  selectedImage : Option String
  mimeType : Option String
deriving DecidableEq, Repr

/-- The single invocation of `chatWithTutor` that `handleSendMessage` makes:
its `message` and `history` arguments. -/
structure ChatCall where
  message : String
  history : List HistoryEntry
deriving DecidableEq, Repr

/-- JavaScript `String.prototype.trim()`: remove leading and trailing
whitespace (structural definition over the character list, so that it
evaluates). -/
def jsTrim (s : String) : String :=
  String.mk (((s.data.dropWhile Char.isWhitespace).reverse.dropWhile Char.isWhitespace).reverse)

/-- `startInitialAnalysis(image, type)` of `App.tsx`.  Sets `isLoading`,
replaces the transcript with the single user message carrying the image
data-URI (`setMessages([{...}])`), then appends the model reply — the
resolved `analyzeMathProblem` text on success, the fixed apology string when
the call throws — and clears `isLoading`. -/
def startInitialAnalysis (s : AppState) (image type : String)
    (outcome : Except Unit String) : AppState :=
  let firstMsg : Message :=
    { role := Role.user
      content := "I\x27ve uploaded a math problem. Can you help me?"
      image := some ("data:" ++ type ++ ";base64," ++ image) }
  let s1 : AppState := { s with isLoading := true, messages := [firstMsg] }
  let reply : Message :=
    match outcome with
    | Except.ok response => { role := Role.model, content := response, image := none }
    | Except.error _ =>
        { role := Role.model
          content := "I\x27m sorry, I had trouble seeing that image. Could you try uploading it again?"
          image := none }
  { s1 with messages := s1.messages ++ [reply], isLoading := false }

/-- `handleSendMessage` of `App.tsx`.  Returns early when the trimmed input
is empty or a request is in flight; otherwise clears the input, appends the
user message, projects the pre-existing `messages` (captured before the
append) to `{role, parts:[{text}]}` history entries, calls `chatWithTutor`
with the message and that history, and appends the reply — resolved text on
success, the fixed apology on a thrown error.  The second component records
the `chatWithTutor` invocation made (`none` on the early return). -/
def handleSendMessage (s : AppState) (outcome : Except Unit String) :
    AppState × Option ChatCall :=
  if jsTrim s.input = "" ∨ s.isLoading = true then (s, none)
  else
    let userMessage := s.input
    let history : List HistoryEntry :=
      s.messages.map (fun m => { role := m.role, parts := [{ text := m.content }] })
    let s1 : AppState :=
      { s with
          input := ""
          messages := s.messages ++ [{ role := Role.user, content := userMessage, image := none }]
          isLoading := true }
    let reply : Message :=
      match outcome with
      | Except.ok response => { role := Role.model, content := response, image := none }
      | Except.error _ =>
          { role := Role.model
            content := "I\x27m sorry, my thoughts are a bit scattered. Could you repeat that?"
            image := none }
    ({ s1 with messages := s1.messages ++ [reply], isLoading := false },
      some { message := userMessage, history := history })

/-- `resetTutor` of `App.tsx`: `setMessages([])`, `setSelectedImage(null)`,
`setMimeType(null)`, `setInput('')`.  `isLoading` is not touched. -/
def resetTutor (s : AppState) : AppState :=
  { s with messages := [], selectedImage := none, mimeType := none, input := "" }

/-- The fixed `SYSTEM_INSTRUCTION` constant of `services/gemini.ts`. -/
def SYSTEM_INSTRUCTION : String :=
  "You are Socrates, a compassionate and patient math tutor. \nYour goal is to help students solve calculus and algebra problems using the Socratic method.\n\nCRITICAL RULES:\n1. NEVER give the full solution or the final answer immediately.\n2. When a student uploads an image, identify the problem and walk them through ONLY the first step.\n3. Use a warm, encouraging, and patient tone.\n4. If a student asks \"Why did we do that?\" or seems stuck, explain the specific underlying concept or mathematical principle in simple terms before moving forward.\n5. After each explanation or step, ask a leading question to guide the student to the next logical step.\n6. Use LaTeX for mathematical notation (e.g., $x^2$, $\\int f(x) dx$).\n7. If the student gets a step right, praise them and move to the next step.\n8. If they get it wrong, gently point out the error and ask a question that helps them see the mistake.\n\nYour responses should be structured to be easily readable, using Markdown and LaTeX."

/-- The `inlineData` payload of the image part of the analyze request. -/
structure InlineData where
  data : String
  mimeType : String
deriving DecidableEq, Repr

/-- A part of the `contents` of a `generateContent` request: inline image
data or text. -/
inductive RequestPart where
  | inlineData (d : InlineData)
  | text (t : String)
deriving DecidableEq, Repr

/-- One element of the `contents` array: a parts list. -/
structure RequestContent where
  parts : List RequestPart
deriving DecidableEq, Repr

/-- The remote request `analyzeMathProblem` passes to
`ai.models.generateContent`: model name, contents, and the system
instruction from its config. -/
structure GenerateRequest where
  model : String
  contents : List RequestContent
  systemInstruction : String
deriving DecidableEq, Repr

/-- The remote interaction `chatWithTutor` performs: the chat created by
`ai.chats.create` (model, system instruction, history) together with the
message passed to `chat.sendMessage`. -/
structure ChatSendRequest where
  model : String
  systemInstruction : String
  history : List HistoryEntry
  message : String
deriving DecidableEq, Repr

/-- The failures a gemini.ts function can raise: the
`Error("GEMINI_API_KEY is not set")` thrown on a falsy key, or an error
propagated from the remote call. -/
inductive GeminiError where
  | missingKey
  | remote
deriving DecidableEq, Repr

/-- JavaScript falsiness of `GEMINI_API_KEY` (`!GEMINI_API_KEY`): the
environment variable is absent (`none`) or the empty string. -/
def keyFalsy : Option String → Bool
  | none => true
  | some s => s == ""

/-- `response.text || fallback`: the fallback replaces an absent or empty
response text. -/
def textOr (t : Option String) (fallback : String) : String :=
  match t with
  | none => fallback
  | some s => if s == "" then fallback else s

/-- `analyzeMathProblem(imageBuffer, mimeType, history = [])` of
`services/gemini.ts`.  Throws `missingKey` on a falsy API key before any
remote request; otherwise issues one `generateContent` request built from
the inline image data, the fixed analysis prompt and the system instruction
(the `history` parameter is never read), and returns `response.text` with
the fixed empty-response fallback.  A remote throw propagates. -/
def analyzeMathProblem {α : Type} (apiKey : Option String)
    (imageBuffer mimeType : String) (history : List α)
    (remote : Except Unit (Option String)) :
    List GenerateRequest × Except GeminiError String :=
  if keyFalsy apiKey then ([], Except.error GeminiError.missingKey)
  else
    let contents : List RequestContent :=
      [ { parts :=
            [ RequestPart.inlineData { data := imageBuffer, mimeType := mimeType },
              RequestPart.text "Please analyze this math problem and guide me through the first step using the Socratic method." ] } ]
    let req : GenerateRequest :=
      { model := "gemini-3.1-pro-preview"
        contents := contents
        systemInstruction := SYSTEM_INSTRUCTION }
    ([req],
      match remote with
      | Except.error _ => Except.error GeminiError.remote
      | Except.ok t =>
          Except.ok (textOr t "I\x27m sorry, I couldn\x27t analyze the image. Could you try again?"))

/-- `chatWithTutor(message, history)` of `services/gemini.ts`.  Throws
`missingKey` on a falsy API key before any remote request; otherwise creates
one chat seeded with the system instruction and the given history, sends the
message, and returns `response.text` with the fixed empty-response fallback.
A remote throw propagates. -/
def chatWithTutor (apiKey : Option String) (message : String)
    (history : List HistoryEntry) (remote : Except Unit (Option String)) :
    List ChatSendRequest × Except GeminiError String :=
  if keyFalsy apiKey then ([], Except.error GeminiError.missingKey)
  else
    let req : ChatSendRequest :=
      { model := "gemini-3.1-pro-preview"
        systemInstruction := SYSTEM_INSTRUCTION
        history := history
        message := message }
    ([req],
      match remote with
      | Except.error _ => Except.error GeminiError.remote
      | Except.ok t =>
          Except.ok (textOr t "I\x27m having trouble thinking right now. Let\x27s try that again."))

/-- The model reply `handleSendMessage` appends, as a function of the
awaited `chatWithTutor` resolution: the resolved text on success, the fixed
apology literal on a thrown error. -/
def hsReply : Except Unit String → Message
  | Except.ok response => { role := Role.model, content := response, image := none }
  | Except.error _ =>
      { role := Role.model
        content := "I\x27m sorry, my thoughts are a bit scattered. Could you repeat that?"
        image := none }

/-- Characterization of `handleSendMessage` when the guard lets it proceed:
input cleared, user message and reply appended, loading cleared, and the
`chatWithTutor` call carries the old input and the projected old history. -/
theorem handleSendMessage_run (s : AppState) (o : Except Unit String)
    (h : ¬ (jsTrim s.input = "" ∨ s.isLoading = true)) :
    handleSendMessage s o =
      ({ s with
          input := ""
          messages := s.messages ++ [Message.mk Role.user s.input none, hsReply o]
          isLoading := false },
        some (ChatCall.mk s.input
          (s.messages.map (fun m => HistoryEntry.mk m.role [TextPart.mk m.content])))) := by
  unfold handleSendMessage
  rw [if_neg h]
  cases o <;> simp [hsReply, List.append_assoc]

/-- Characterization of `handleSendMessage` when the guard rejects: the
state is returned untouched and no call is made. -/
theorem handleSendMessage_skip (s : AppState) (o : Except Unit String)
    (h : jsTrim s.input = "" ∨ s.isLoading = true) :
    handleSendMessage s o = (s, none) := by
  unfold handleSendMessage
  rw [if_pos h]

/-- Claim C1, counterexample: with an empty conversation (hence no prior
image turn), input `"hi"` and no request in flight, `handleSendMessage` is
not a no-op — the transcript grows from length 0 to length 2 and a
`chatWithTutor` call is issued. -/
theorem handleSendMessage_not_noop_on_empty_conversation :
    (AppState.mk [] "hi" false none none).messages.length = 0 ∧
    (handleSendMessage (AppState.mk [] "hi" false none none)
        (Except.ok "ok")).1.messages.length = 2 ∧
    (handleSendMessage (AppState.mk [] "hi" false none none)
        (Except.ok "ok")).2 ≠ none := by
  refine ⟨rfl, by decide, by decide⟩

/-- Claim C1, amended: `handleSendMessage` is a no-op — state unchanged and
no `chatWithTutor` call issued — whenever the trimmed input is empty or a
request is in flight.  It performs no prior-image-turn check itself; that
rejection is enforced by the UI, which disables the input field while the
transcript is empty. -/
theorem handleSendMessage_noop_when_blank_or_loading (s : AppState)
    (o : Except Unit String) (h : jsTrim s.input = "" ∨ s.isLoading = true) :
    handleSendMessage s o = (s, none) := by
  unfold handleSendMessage
  rw [if_pos h]

/-- Witness for the amended C1 at whitespace-only input. -/
theorem handleSendMessage_noop_when_blank_or_loading_witness :
    handleSendMessage
        (AppState.mk [Message.mk Role.user "a" none] "   " false none none)
        (Except.ok "r") =
      (AppState.mk [Message.mk Role.user "a" none] "   " false none none, none) :=
  handleSendMessage_noop_when_blank_or_loading _ _ (Or.inl (by decide))

/-- Claim C2, counterexample: from a prior transcript of length 1, a
successful `startInitialAnalysis` yields a transcript of length 2 — not 3 —
and the prior message no longer heads the transcript, so nothing was
appended to the existing messages. -/
theorem startInitialAnalysis_discards_prior :
    (startInitialAnalysis
        (AppState.mk [Message.mk Role.user "old" none] "" false none none)
        "b64" "image/png" (Except.ok "r")).messages.length = 2 ∧
    (startInitialAnalysis
        (AppState.mk [Message.mk Role.user "old" none] "" false none none)
        "b64" "image/png" (Except.ok "r")).messages.head? ≠
      some (Message.mk Role.user "old" none) :=
  ⟨rfl, by decide⟩

/-- Claim C2, amended: a successful `startInitialAnalysis` replaces the
transcript: whatever the prior state, the result is exactly the two new
messages — first a user message with the image field set to the data-URI,
then a model message with no image.  This coincides with appending exactly
2 messages only when the prior transcript is empty. -/
theorem startInitialAnalysis_success_two_messages (s : AppState)
    (image type r : String) :
    (startInitialAnalysis s image type (Except.ok r)).messages =
      [ Message.mk Role.user "I\x27ve uploaded a math problem. Can you help me?"
          (some ("data:" ++ type ++ ";base64," ++ image)),
        Message.mk Role.model r none ] := rfl

/-- Claim C3: when `handleSendMessage` proceeds, the history passed to
`chatWithTutor` is exactly the `{role, parts:[{text: content}]}` projection
of the messages present before the new user message was appended, and it is
insensitive to the image fields of those messages (images never reach the
projected history). -/
theorem handleSendMessage_history_projection (s : AppState)
    (o : Except Unit String) (h1 : jsTrim s.input ≠ "") (h2 : s.isLoading = false) :
    (handleSendMessage s o).2 =
      some (ChatCall.mk s.input
        (s.messages.map (fun m => HistoryEntry.mk m.role [TextPart.mk m.content]))) ∧
    (handleSendMessage
        { s with messages := s.messages.map (fun m => { m with image := none }) } o).2 =
      (handleSendMessage s o).2 := by
  have hg : ¬ (jsTrim s.input = "" ∨ s.isLoading = true) := by simp [h1, h2]
  constructor
  · rw [handleSendMessage_run s o hg]
  · rw [handleSendMessage_run s o hg,
      handleSendMessage_run
        { s with messages := s.messages.map (fun m => { m with image := none }) } o hg]
    simp [List.map_map]

/-- Witness for C3 at the transcript `[{user,"a",image}, {model,"b"}]` from
the spec's example. -/
theorem handleSendMessage_history_projection_witness :
    (handleSendMessage
        (AppState.mk
          [Message.mk Role.user "a" (some "img"), Message.mk Role.model "b" none]
          "next" false none none)
        (Except.ok "r")).2 =
      some (ChatCall.mk "next"
        [ HistoryEntry.mk Role.user [TextPart.mk "a"],
          HistoryEntry.mk Role.model [TextPart.mk "b"] ]) :=
  (handleSendMessage_history_projection _ _ (by decide) rfl).1

/-- Claim C4: when the awaited remote call throws, `startInitialAnalysis`
and `handleSendMessage` each end the transcript with a model-turn message
whose content is the fixed apology literal for that call type, the two
literals are distinct, and each operation still returns a state — the
exception is caught inside the component and never propagates. -/
theorem store_appends_fixed_apology_on_error (s : AppState)
    (image type : String) (h1 : jsTrim s.input ≠ "") (h2 : s.isLoading = false) :
    (startInitialAnalysis s image type (Except.error ())).messages.getLast? =
      some (Message.mk Role.model
        "I\x27m sorry, I had trouble seeing that image. Could you try uploading it again?"
        none) ∧
    (handleSendMessage s (Except.error ())).1.messages.getLast? =
      some (Message.mk Role.model
        "I\x27m sorry, my thoughts are a bit scattered. Could you repeat that?" none) ∧
    ("I\x27m sorry, I had trouble seeing that image. Could you try uploading it again?" ≠
      "I\x27m sorry, my thoughts are a bit scattered. Could you repeat that?") := by
  have hg : ¬ (jsTrim s.input = "" ∨ s.isLoading = true) := by simp [h1, h2]
  refine ⟨rfl, ?_, by decide⟩
  rw [handleSendMessage_run s (Except.error ()) hg]
  simp [hsReply, List.getLast?_concat]

/-- Witness for C4 at a concrete non-empty input and empty transcript. -/
theorem store_appends_fixed_apology_on_error_witness :
    (startInitialAnalysis (AppState.mk [] "q" false none none) "b64" "image/png"
        (Except.error ())).messages.getLast? =
      some (Message.mk Role.model
        "I\x27m sorry, I had trouble seeing that image. Could you try uploading it again?"
        none) ∧
    (handleSendMessage (AppState.mk [] "q" false none none)
        (Except.error ())).1.messages.getLast? =
      some (Message.mk Role.model
        "I\x27m sorry, my thoughts are a bit scattered. Could you repeat that?" none) ∧
    ("I\x27m sorry, I had trouble seeing that image. Could you try uploading it again?" ≠
      "I\x27m sorry, my thoughts are a bit scattered. Could you repeat that?") :=
  store_appends_fixed_apology_on_error (AppState.mk [] "q" false none none)
    "b64" "image/png" (by decide) rfl

/-- Claim C5: after `resetTutor` the transcript has length 0 and the staged
image state (`selectedImage`, `mimeType`) is cleared, whatever the prior
state — including mid-flight states with `isLoading` set. -/
theorem resetTutor_clears (s : AppState) :
    (resetTutor s).messages = [] ∧ (resetTutor s).selectedImage = none ∧
      (resetTutor s).mimeType = none :=
  ⟨rfl, rfl, rfl⟩

/-- Claim C6, counterexample: the transcript is not append-only across all
non-reset operations — `startInitialAnalysis` from a transcript holding one
message does not keep that message in place as a prefix. -/
theorem startInitialAnalysis_not_append_only :
    (startInitialAnalysis
        (AppState.mk [Message.mk Role.user "old" none] "" false none none)
        "b64" "image/png" (Except.ok "r")).messages.take 1 ≠
      [Message.mk Role.user "old" none] := by decide

/-- Claim C6, amended: `handleSendMessage` is append-only — the prior
transcript is preserved unchanged and in place as a prefix — and no message
is mutated individually; but `startInitialAnalysis` is not append-only: it
replaces the whole transcript with a fresh two-message sequence headed by
the new image-bearing user message, so bulk deletion also happens on a new
image upload, not only via `resetTutor`. -/
theorem transcript_append_only_amended (s : AppState) (o : Except Unit String)
    (image type : String) :
    (∃ t, (handleSendMessage s o).1.messages = s.messages ++ t) ∧
    (resetTutor s).messages = [] ∧
    (∃ reply, (startInitialAnalysis s image type o).messages =
      [ Message.mk Role.user "I\x27ve uploaded a math problem. Can you help me?"
          (some ("data:" ++ type ++ ";base64," ++ image)), reply ]) := by
  refine ⟨?_, rfl, ⟨_, rfl⟩⟩
  by_cases h : jsTrim s.input = "" ∨ s.isLoading = true
  · refine ⟨[], ?_⟩
    rw [handleSendMessage_skip s o h]
    simp
  · refine ⟨[Message.mk Role.user s.input none, hsReply o], ?_⟩
    rw [handleSendMessage_run s o h]

/-- Claim C10: a failed text exchange is not rolled back — when
`chatWithTutor` throws, the transcript ends as the prior messages, all
unchanged, followed by exactly the new user message and the fixed fallback
model message (growth by exactly two). -/
theorem handleSendMessage_error_no_rollback (s : AppState)
    (h1 : jsTrim s.input ≠ "") (h2 : s.isLoading = false) :
    (handleSendMessage s (Except.error ())).1.messages =
      s.messages ++
        [ Message.mk Role.user s.input none,
          Message.mk Role.model
            "I\x27m sorry, my thoughts are a bit scattered. Could you repeat that?"
            none ] := by
  have hg : ¬ (jsTrim s.input = "" ∨ s.isLoading = true) := by simp [h1, h2]
  rw [handleSendMessage_run s (Except.error ()) hg]
  rfl

/-- Witness for C10 at a one-message transcript. -/
theorem handleSendMessage_error_no_rollback_witness :
    (handleSendMessage
        (AppState.mk [Message.mk Role.model "prior" none] "hm" false none none)
        (Except.error ())).1.messages =
      [Message.mk Role.model "prior" none] ++
        [ Message.mk Role.user "hm" none,
          Message.mk Role.model
            "I\x27m sorry, my thoughts are a bit scattered. Could you repeat that?"
            none ] :=
  handleSendMessage_error_no_rollback
    (AppState.mk [Message.mk Role.model "prior" none] "hm" false none none)
    (by decide) rfl

/-- Claim C7: with the API key absent from the environment, both
`analyzeMathProblem` and `chatWithTutor` fail with the missing-credential
error and issue no remote request; the error is returned to the caller —
no fallback string is substituted by the client. -/
theorem missing_key_fails_before_request {α : Type} (imageBuffer mimeType msg : String)
    (history : List α) (chatHistory : List HistoryEntry)
    (remote : Except Unit (Option String)) :
    analyzeMathProblem none imageBuffer mimeType history remote =
      ([], Except.error GeminiError.missingKey) ∧
    chatWithTutor none msg chatHistory remote =
      ([], Except.error GeminiError.missingKey) :=
  ⟨rfl, rfl⟩

/-- Claim C8: when the remote call succeeds but its text is absent or empty,
each service function returns successfully (no exception) with its fixed
fallback string, and the two fallback strings are distinct per call type. -/
theorem empty_response_fallback {α : Type} (k imageBuffer mimeType msg : String)
    (history : List α) (chatHistory : List HistoryEntry) (hk : k ≠ "") :
    (analyzeMathProblem (some k) imageBuffer mimeType history (Except.ok none)).2 =
      Except.ok "I\x27m sorry, I couldn\x27t analyze the image. Could you try again?" ∧
    (analyzeMathProblem (some k) imageBuffer mimeType history (Except.ok (some ""))).2 =
      Except.ok "I\x27m sorry, I couldn\x27t analyze the image. Could you try again?" ∧
    (chatWithTutor (some k) msg chatHistory (Except.ok none)).2 =
      Except.ok "I\x27m having trouble thinking right now. Let\x27s try that again." ∧
    (chatWithTutor (some k) msg chatHistory (Except.ok (some ""))).2 =
      Except.ok "I\x27m having trouble thinking right now. Let\x27s try that again." ∧
    ("I\x27m sorry, I couldn\x27t analyze the image. Could you try again?" ≠
      "I\x27m having trouble thinking right now. Let\x27s try that again.") := by
  have hf : keyFalsy (some k) = false := by simp [keyFalsy, hk]
  refine ⟨?_, ?_, ?_, ?_, by decide⟩ <;>
    simp [analyzeMathProblem, chatWithTutor, hf, textOr]

/-- Witness for C8 at a concrete present key. -/
theorem empty_response_fallback_witness :
    (analyzeMathProblem (some "key") "img" "image/png" ([] : List Nat)
        (Except.ok none)).2 =
      Except.ok "I\x27m sorry, I couldn\x27t analyze the image. Could you try again?" ∧
    (analyzeMathProblem (some "key") "img" "image/png" ([] : List Nat)
        (Except.ok (some ""))).2 =
      Except.ok "I\x27m sorry, I couldn\x27t analyze the image. Could you try again?" ∧
    (chatWithTutor (some "key") "hello" [] (Except.ok none)).2 =
      Except.ok "I\x27m having trouble thinking right now. Let\x27s try that again." ∧
    (chatWithTutor (some "key") "hello" [] (Except.ok (some ""))).2 =
      Except.ok "I\x27m having trouble thinking right now. Let\x27s try that again." ∧
    ("I\x27m sorry, I couldn\x27t analyze the image. Could you try again?" ≠
      "I\x27m having trouble thinking right now. Let\x27s try that again.") :=
  empty_response_fallback "key" "img" "image/png" "hello" ([] : List Nat) []
    (by decide)

/-- Claim C9: `analyzeMathProblem` never reads its history parameter — any
two history arguments, even of different element types, give identical
results — and when the key is present the single request issued consists
exactly of the inline image data with its MIME type, the fixed analysis
prompt, and the fixed system instruction. -/
theorem analyzeMathProblem_ignores_history {α β : Type} (apiKey : Option String)
    (imageBuffer mimeType : String) (h1 : List α) (h2 : List β)
    (remote : Except Unit (Option String)) :
    analyzeMathProblem apiKey imageBuffer mimeType h1 remote =
      analyzeMathProblem apiKey imageBuffer mimeType h2 remote ∧
    (analyzeMathProblem apiKey imageBuffer mimeType h1 remote).1 =
      (if keyFalsy apiKey then [] else
        [ GenerateRequest.mk "gemini-3.1-pro-preview"
            [ RequestContent.mk
                [ RequestPart.inlineData (InlineData.mk imageBuffer mimeType),
                  RequestPart.text "Please analyze this math problem and guide me through the first step using the Socratic method." ] ]
            SYSTEM_INSTRUCTION ]) := by
  refine ⟨rfl, ?_⟩
  by_cases h : keyFalsy apiKey <;> simp [analyzeMathProblem, h]
